import Mathlib

/-!
Verification development for the tennis-prediction-system repository.

Shallow embedding of the two core components:

* the session/conversation persistence layer
  (`adk-agent/database_session_service.py`): tables `agent_sessions`,
  `session_events` and `user_context` become lists of records; each public
  operation becomes a pure function from a database state (plus a clock value
  standing for `CURRENT_TIMESTAMP`) to a new database state;

* the player-name resolution logic (`adk-agent/tools.py`):
  `find_players_by_name` / `expand_player_name` become functions over an
  explicit directory of match records, with an explicit fail-point parameter
  modelling where (if anywhere) the database driver raises.

JSON objects are modelled as association lists of string keys and a small
value type; Python's `{**a, **b}` shallow merge, `x or {}` coalescing and
SQL `COALESCE` are embedded explicitly.
-/

namespace Tennis

/-- Scalar JSON-ish value stored in `state` / `metadata` / event payloads. -/
inductive Value where
  | s : String → Value
  | n : Int → Value
deriving DecidableEq, Repr

/-- A JSON object: association list from string keys to values. -/
abbrev Obj := List (String × Value)

/-- First-match lookup in an object, mirroring Python `d[k]` / `d.get(k)`. -/
def lookupKey (k : String) : Obj → Option Value
  | [] => none
  | p :: ps => if p.1 = k then some p.2 else lookupKey k ps

/-- Option alternative: first operand if present, otherwise the second. -/
def optOr (a b : Option Value) : Option Value :=
  match a with
  | some v => some v
  | none => b

/-- Python dict merge `{**old, **new}`: keys of `old` in order, with values
overridden by `new` where present, followed by the keys only in `new`. -/
def dictMerge (old new : Obj) : Obj :=
  old.map (fun p => match lookupKey p.1 new with
    | some v => (p.1, v)
    | none => p)
  ++ new.filter (fun p => (lookupKey p.1 old).isNone)

/-- Python `d or {}` on an optional dict: `None` becomes the empty object
(and a falsy empty dict stays the empty object). -/
def orEmpty (o : Option Obj) : Obj := o.getD []

/-- Row of the `agent_sessions` table (database_session_service.py, lines
48-62).  `state` and `metadata` are `Option Obj` because the JSONB columns
are nullable; the service itself always stores non-null objects. -/
structure AgentSession where
  session_id : String
  user_id : String
  app_name : String
  events : List Obj
  state : Option Obj
  metadata : Option Obj
  created_at : Nat
  updated_at : Nat
  last_activity : Nat
  conversation_count : Nat
  total_events : Nat
deriving DecidableEq, Repr

/-- Row of the `session_events` table (lines 71-84), without the serial id
and timestamp, which no claim observes. -/
structure SessionEvent where
  session_id : String
  user_id : String
  app_name : String
  event_type : Value
  event_data : Obj
deriving DecidableEq, Repr

/-- Row of the `user_context` table (lines 91-100). -/
structure UserContext where
  user_id : String
  app_name : String
  user_preferences : Obj
  interaction_stats : Obj
  created_at : Nat
  updated_at : Nat
deriving DecidableEq, Repr

/-- The whole database state seen by `DatabaseSessionService`. -/
structure DB where
  agent_sessions : List AgentSession
  session_events : List SessionEvent
  user_context : List UserContext
deriving DecidableEq, Repr

/-- The empty database. -/
def DB.empty : DB := ⟨[], [], []⟩

/-- Predicate for the primary-key lookup `ON CONFLICT (session_id)`:
`agent_sessions` is keyed by `session_id` alone. -/
def sidKey (sid : String) (r : AgentSession) : Bool :=
  r.session_id == sid

/-- The three-column `WHERE session_id = _ AND user_id = _ AND app_name = _`
filter used by get/update/delete. -/
def threeKey (app user sid : String) (r : AgentSession) : Bool :=
  r.session_id == sid && r.user_id == user && r.app_name == app

/-- Same three-column filter on the `session_events` table. -/
def threeKeyEv (app user sid : String) (e : SessionEvent) : Bool :=
  e.session_id == sid && e.user_id == user && e.app_name == app

/-- First `agent_sessions` row with the given `session_id` (primary key). -/
def findSessionRow (db : DB) (sid : String) : Option AgentSession :=
  db.agent_sessions.find? (sidKey sid)

/-- First `agent_sessions` row matching the full three-column key. -/
def findByKeys (db : DB) (app user sid : String) : Option AgentSession :=
  db.agent_sessions.find? (threeKey app user sid)

/-- All `session_events` rows of one session. -/
def sessionEventsFor (db : DB) (app user sid : String) : List SessionEvent :=
  db.session_events.filter (threeKeyEv app user sid)

/-- The row inserted by `create_session` when no conflict occurs:
`state` and `metadata` are the Python-coalesced arguments
(`initial_state or {}`, `metadata or {}`, lines 127-128), `events` takes the
column default `'[]'`, counters take the default `0`, all three timestamp
columns take `CURRENT_TIMESTAMP`. -/
def freshRow (t : Nat) (app user sid : String) (istate imeta : Option Obj) :
    AgentSession :=
  { session_id := sid
    user_id := user
    app_name := app
    events := []
    state := some (orEmpty istate)
    metadata := some (orEmpty imeta)
    created_at := t
    updated_at := t
    last_activity := t
    conversation_count := 0
    total_events := 0 }

/-- The `ON CONFLICT (session_id) DO UPDATE` arm of `create_session`
(lines 142-146): `state = COALESCE(agent_sessions.state, '{}')`,
`metadata = COALESCE(agent_sessions.metadata, '{}')`, and both
`last_activity` and `updated_at` set to `CURRENT_TIMESTAMP`. -/
def touchRow (t : Nat) (r : AgentSession) : AgentSession :=
  { r with
    state := some (orEmpty r.state)
    metadata := some (orEmpty r.metadata)
    last_activity := t
    updated_at := t }

/-- The committing effect of the `INSERT ... ON CONFLICT (user_id, app_name)
DO NOTHING` into `user_context` performed by `create_session` (lines
150-154).  The table's PRIMARY KEY is `user_id` alone (line 93), so at most
one row per user exists and the pair-index conflict check coincides with a
`user_id` check whenever the transaction commits; the raising case — an
existing row for the same user under a DIFFERENT app violating the
non-arbitrated primary key — is factored out into `userCtxPkViolation` and
`create_sessionChecked` below, which wrap this committing branch. -/
def insertUserCtx (l : List UserContext) (t : Nat) (user app : String) :
    List UserContext :=
  if l.any (fun c => c.user_id == user && c.app_name == app) then l
  else l ++ [⟨user, app, [], [], t, t⟩]

/-- Embedding of the committing branch of
`DatabaseSessionService.create_session` (lines 115-163): insert a fresh
session row, or on primary-key conflict touch the existing row, then lazily
insert the user-context row.  `create_sessionChecked` below adds the
user-context unique-violation path, on which this committed state is never
reached. -/
def create_session (db : DB) (t : Nat) (app user sid : String)
    (initial_state metadata : Option Obj) : DB :=
  { db with
    agent_sessions :=
      if db.agent_sessions.any (sidKey sid) then
        db.agent_sessions.map (fun r => if sidKey sid r then touchRow t r else r)
      else
        db.agent_sessions ++ [freshRow t app user sid initial_state metadata]
    user_context := insertUserCtx db.user_context t user app }

/-- The ADK-shaped view returned by `get_session` (lines 183-191). -/
structure SessionView where
  id : String
  appName : String
  userId : String
  state : Obj
  metadata : Obj
deriving DecidableEq, Repr

/-- Embedding of `get_session` (lines 165-198): three-column lookup; the
returned `state` / `metadata` are Python-coalesced (`result[i] or {}`). -/
def get_session (db : DB) (app user sid : String) : Option SessionView :=
  match findByKeys db app user sid with
  | some r => some ⟨sid, app, user, orEmpty r.state, orEmpty r.metadata⟩
  | none => none

/-- The `event_type` column value for one event payload:
`event_data.get('type', 'unknown')` (line 304). -/
def eventTypeOf (e : Obj) : Value :=
  (lookupKey "type" e).getD (Value.s "unknown")

/-- The `session_events` row inserted for one supplied event (lines 294-306). -/
def mkEventRow (app user sid : String) (e : Obj) : SessionEvent :=
  ⟨sid, user, app, eventTypeOf e, e⟩

/-- State/metadata update rule of `update_session` (lines 253-263): merge the
supplied object into the (coalesced) current one, or keep the coalesced
current one when the argument is omitted. -/
def mergeOpt (base : Obj) : Option Obj → Obj
  | some s => dictMerge base s
  | none => base

/-- The `UPDATE agent_sessions SET ...` row transformation (lines 272-291),
with the new column values computed from the initially fetched row `cur`. -/
def updatedRow (t : Nat) (cur : AgentSession) (state? : Option Obj)
    (events? : Option (List Obj)) (metadata? : Option Obj) (addConv : Bool)
    (r : AgentSession) : AgentSession :=
  { r with
    state := some (mergeOpt (orEmpty cur.state) state?)
    events := cur.events ++ events?.getD []
    metadata := some (mergeOpt (orEmpty cur.metadata) metadata?)
    last_activity := t
    conversation_count := cur.conversation_count + (if addConv then 1 else 0)
    total_events := cur.total_events + (events?.getD []).length
    updated_at := t }

/-- Embedding of `update_session` (lines 224-315): fetch the row by the
three-column key; if absent, delegate to `create_session` with the supplied
state and metadata and return (events are dropped, lines 246-249); otherwise
merge state and metadata, append events to the row's list, bump the counters,
and insert one `session_events` row per supplied event. -/
def update_session (db : DB) (t : Nat) (app user sid : String)
    (state? : Option Obj) (events? : Option (List Obj))
    (metadata? : Option Obj) (addConv : Bool) : DB :=
  match findByKeys db app user sid with
  | none => create_session db t app user sid state? metadata?
  | some cur =>
    { db with
      agent_sessions := db.agent_sessions.map (fun r =>
        if threeKey app user sid r then
          updatedRow t cur state? events? metadata? addConv r
        else r)
      session_events :=
        db.session_events ++ (events?.getD []).map (mkEventRow app user sid) }

/-- Embedding of `delete_session` (lines 317-348): delete the session's
event rows, then its session rows; the returned flag is the rowcount of the
session delete (`cur.rowcount > 0`, line 339). -/
def delete_session (db : DB) (app user sid : String) : DB × Bool :=
  ({ db with
      agent_sessions := db.agent_sessions.filter
        (fun r => !(threeKey app user sid r))
      session_events := db.session_events.filter
        (fun e => !(threeKeyEv app user sid e)) },
    db.agent_sessions.any (threeKey app user sid))

/-- The two-column `WHERE user_id = _ AND app_name = _` filter. -/
def twoKey (app user : String) (r : AgentSession) : Bool :=
  r.user_id == user && r.app_name == app

/-- Same two-column filter on `session_events`. -/
def twoKeyEv (app user : String) (e : SessionEvent) : Bool :=
  e.user_id == user && e.app_name == app

/-- Embedding of `delete_user_sessions` (lines 350-380): delete all of a
user's event rows then session rows; returns the session-delete rowcount. -/
def delete_user_sessions (db : DB) (app user : String) : DB × Nat :=
  ({ db with
      agent_sessions := db.agent_sessions.filter (fun r => !(twoKey app user r))
      session_events := db.session_events.filter
        (fun e => !(twoKeyEv app user e)) },
    (db.agent_sessions.filter (twoKey app user)).length)

/-! Player resolver (`adk-agent/tools.py`). -/

/-- One row of the `predictions` table as seen by the resolver: only the two
name-bearing columns `player1` / `player2` matter. -/
structure PredRow where
  player1 : String
  player2 : String
deriving DecidableEq, Repr

/-- One resolver result, a `{'full_name': ..., 'match_type': ...}` dict. -/
structure PlayerMatch where
  full_name : String
  match_type : String
deriving DecidableEq, Repr

/-- Python `str.strip()` on the character list: drop ASCII whitespace from
both ends. -/
def stripChars (l : List Char) : List Char :=
  ((l.dropWhile Char.isWhitespace).reverse.dropWhile Char.isWhitespace).reverse

/-- Python `str.strip()`. -/
def stripStr (s : String) : String := ⟨stripChars s.data⟩

/-- Helper for Python `str.title()`: uppercase a letter that follows a
non-letter, lowercase a letter that follows a letter. -/
def titleAux : Bool → List Char → List Char
  | _, [] => []
  | prevAlpha, c :: cs =>
    (if c.isAlpha then (if prevAlpha then c.toLower else c.toUpper) else c)
      :: titleAux c.isAlpha cs

/-- Python `str.title()`. -/
def titleStr (s : String) : String := ⟨titleAux false s.data⟩

/-- Python `str.lower()` (and SQL `LOWER`). -/
def lowerStr (s : String) : String := ⟨s.data.map Char.toLower⟩

/-- Helper for Python `str.split()` with no separator: split on runs of
whitespace, producing no empty tokens. -/
def splitWsAux : List Char → List Char → List (List Char)
  | [], [] => []
  | [], acc => [acc.reverse]
  | c :: cs, acc =>
    if c.isWhitespace then
      (if acc.isEmpty then splitWsAux cs [] else acc.reverse :: splitWsAux cs [])
    else splitWsAux cs (c :: acc)

/-- Number of whitespace-delimited tokens, Python `len(s.split())`. -/
def tokenCount (s : String) : Nat := (splitWsAux s.data []).length

/-- Split on single spaces keeping empty fields, as SQL `SPLIT_PART` does. -/
def splitSpaceAux : List Char → List Char → List (List Char)
  | [], acc => [acc.reverse]
  | c :: cs, acc =>
    if c = ' ' then acc.reverse :: splitSpaceAux cs []
    else splitSpaceAux cs (c :: acc)

/-- SQL `SPLIT_PART(s, ' ', -1)`: the last space-delimited field. -/
def lastPart (s : String) : String :=
  ⟨((splitSpaceAux s.data []).getLast?).getD []⟩

/-- Whether the first list is a prefix of the second, as a Bool. -/
def startsWithL : List Char → List Char → Bool
  | [], _ => true
  | _ :: _, [] => false
  | a :: as, b :: bs => a == b && startsWithL as bs

/-- Substring containment on character lists, modelling `LIKE '%q%'` for a
pattern with no wildcard characters. -/
def containsL : List Char → List Char → Bool
  | needle, [] => needle.isEmpty
  | needle, c :: cs => startsWithL needle (c :: cs) || containsL needle cs

/-- Every name appearing in either player slot, `player1` values first, as a
concrete realisation of the SQL `UNION` row set. -/
def allPlayers (dir : List PredRow) : List String :=
  dir.map (·.player1) ++ dir.map (·.player2)

/-- Duplicate removal keeping the first occurrence (SQL `DISTINCT`/`UNION`). -/
def dedupFirst : List String → List String
  | [] => []
  | x :: xs => x :: (dedupFirst xs).filter (fun y => !(y == x))

/-- Strategy 1 of `find_players_by_name` (tools.py lines 46-54):
case-insensitive exact equality against either player slot. -/
def exactMatches (dir : List PredRow) (q : String) : List String :=
  dedupFirst ((allPlayers dir).filter (fun p => lowerStr p == lowerStr q))

/-- Strategy 2 (lines 57-66): case-insensitive equality with the last
space-delimited token of a known name. -/
def surnameMatches (dir : List PredRow) (q : String) : List String :=
  dedupFirst ((allPlayers dir).filter
    (fun p => lowerStr (lastPart p) == lowerStr q))

/-- Strategy 3 (lines 69-77): case-insensitive substring containment. -/
def likeMatches (dir : List PredRow) (q : String) : List String :=
  dedupFirst ((allPlayers dir).filter
    (fun p => containsL (lowerStr q).data (lowerStr p).data))

/-- The dedup-and-truncate loop of lines 80-87: keep the first occurrence of
each `full_name`, stopping as soon as `max_results` entries are kept. -/
def uniqLoop : List PlayerMatch → List String → List PlayerMatch → Nat →
    List PlayerMatch
  | [], _, acc, _ => acc.reverse
  | m :: ms, seen, acc, maxR =>
    if seen.any (fun s => s == m.full_name) then uniqLoop ms seen acc maxR
    else if acc.length + 1 ≥ maxR then (m :: acc).reverse
    else uniqLoop ms (m.full_name :: seen) (m :: acc) maxR

/-- The accumulated `matches` list of `find_players_by_name` (lines 43-77):
exact matches always, surname and containment matches only when the cleaned
query has exactly one whitespace token. -/
def playerStrategies (dir : List PredRow) (q : String) : List PlayerMatch :=
  if tokenCount q = 1 then
    (exactMatches dir q).map (fun p => (⟨p, "exact"⟩ : PlayerMatch))
      ++ (surnameMatches dir q).map (fun p => (⟨p, "surname"⟩ : PlayerMatch))
      ++ (likeMatches dir q).map (fun p => (⟨p, "partial"⟩ : PlayerMatch))
  else (exactMatches dir q).map (fun p => (⟨p, "exact"⟩ : PlayerMatch))

/-- The pure matching pipeline of `find_players_by_name` (lines 39-89),
reached when the database connection and every query succeed: clean the
query (`strip().title()`), run the strategies, dedup and truncate. -/
def findPlayersPure (dir : List PredRow) (search_name : String)
    (max_results : Nat) : List PlayerMatch :=
  uniqLoop (playerStrategies dir (titleStr (stripStr search_name))) [] []
    max_results

/-- Where, if anywhere, the database layer fails during a resolver call. -/
inductive FailPoint where
  | ok
  | atConnect
  | atQuery
deriving DecidableEq, Repr

/-- Python exception classes observable at the resolver boundary. -/
inductive PyError where
  | unboundLocalError
  | importError
  | otherError
deriving DecidableEq, Repr

/-- Embedding of `find_players_by_name` (tools.py lines 23-101) including
its exception paths.  When `psycopg2.connect` itself raises (driver absent,
so `psycopg2` is `None` and the attribute access raises, or the connection
attempt fails), the `except` handler executes `return []`, but the `finally`
block then evaluates `if conn:` with the local `conn` never assigned, raising
`UnboundLocalError` which replaces the pending return — the caller sees an
exception.  When a query fails after the connection was established, `conn`
is bound, the handler's `return []` survives the `finally` cleanup, and the
caller sees the empty list. -/
def find_players_by_name (fp : FailPoint) (dir : List PredRow)
    (search_name : String) (max_results : Nat) :
    Except PyError (List PlayerMatch) :=
  match fp with
  | .atConnect => .error .unboundLocalError
  | .atQuery => .ok []
  | .ok => .ok (findPlayersPure dir search_name max_results)

/-- The `except ImportError` handler of `expand_player_name` (tools.py lines
135-141): a multi-token input is returned title-cased as the single
candidate, a single-token input yields the empty list; any other exception
propagates. -/
def expandFallback (input : String) (e : PyError) :
    Except PyError (List String) :=
  match e with
  | .importError =>
    if tokenCount input > 1 then .ok [titleStr input] else .ok []
  | e => .error e

/-- The second half of `expand_player_name` (lines 122-133): re-query with
`max_results=10` and classify by the number of matches. -/
def expandWide (fp : FailPoint) (dir : List PredRow) (input : String) :
    Except PyError (List String) :=
  match find_players_by_name fp dir input 10 with
  | .error e => expandFallback input e
  | .ok [] => .ok []
  | .ok [m] => .ok [m.full_name]
  | .ok ms => .ok (ms.map (·.full_name))

/-- Embedding of `expand_player_name` (tools.py lines 103-141): strip the
input, try an exact match with `max_results=1`, otherwise query wide; the
whole body is wrapped in a `try` whose only handler catches `ImportError`. -/
def expand_player_name (fp : FailPoint) (dir : List PredRow)
    (player_input : String) : Except PyError (List String) :=
  let input := stripStr player_input
  match find_players_by_name fp dir input 1 with
  | .error e => expandFallback input e
  | .ok (m0 :: _) =>
    if m0.match_type == "exact" then .ok [m0.full_name]
    else expandWide fp dir input
  | .ok [] => expandWide fp dir input

/-- Errors surfaced by the store: a generic storage-layer failure raised by
the backing store mid-transaction, or the `user_context` unique violation
raised by the non-arbitrated `user_id` primary key. -/
inductive DbError where
  | storageFailure
  | uniqueViolation
deriving DecidableEq, Repr

/-- Whether the lazy `user_context` insert of `create_session` raises:
the table's PRIMARY KEY is `user_id` alone (line 93) while the
`ON CONFLICT (user_id, app_name) DO NOTHING` clause (line 153) arbitrates
only the pair index `idx_user_app` (line 103).  A stored context row for
the same user under a different app therefore conflicts on the
non-arbitrated primary key and the insert raises a unique violation; a row
with the exact `(user, app)` pair hits the arbiter index and is skipped
without error. -/
def userCtxPkViolation (l : List UserContext) (user app : String) : Bool :=
  l.any (fun c => c.user_id == user && !(c.app_name == app))

/-- Full embedding of `create_session` including the `user_context` error
path: when the lazy context insert violates the `user_id` primary key, the
`except` block (lines 158-161) rolls back the whole transaction — undoing
the session insert or touch — and re-raises, so the caller sees an error
and the database is unchanged; otherwise the transaction commits with the
effect of `create_session`. -/
def create_sessionChecked (db : DB) (t : Nat) (app user sid : String)
    (initial_state metadata : Option Obj) : Except DbError DB :=
  if userCtxPkViolation db.user_context user app then .error .uniqueViolation
  else .ok (create_session db t app user sid initial_state metadata)

/-- Variant of `create_session` with an explicit storage-fault flag: the `except` block
at lines 158-161 rolls back and re-raises, so a fault propagates as an
error and leaves the database unchanged. -/
def create_sessionE (fault : Bool) (db : DB) (t : Nat) (app user sid : String)
    (initial_state metadata : Option Obj) : Except DbError DB :=
  if fault then .error .storageFailure
  else .ok (create_session db t app user sid initial_state metadata)

/-- Variant of `update_session` with a storage-fault flag: the `except` block at lines
310-313 rolls back and re-raises. -/
def update_sessionE (fault : Bool) (db : DB) (t : Nat) (app user sid : String)
    (state? : Option Obj) (events? : Option (List Obj))
    (metadata? : Option Obj) (addConv : Bool) : Except DbError DB :=
  if fault then .error .storageFailure
  else .ok (update_session db t app user sid state? events? metadata? addConv)

/-- Variant of `delete_session` with a storage-fault flag: the `except` block at lines
343-346 rolls back and returns `False` — the failure is NOT re-raised. -/
def delete_sessionE (fault : Bool) (db : DB) (app user sid : String) :
    Except DbError (DB × Bool) :=
  if fault then .ok (db, false)
  else .ok (delete_session db app user sid)

/-- Variant of `delete_user_sessions` with a storage-fault flag: the `except` block at
lines 375-378 rolls back and returns `0` — the failure is NOT re-raised. -/
def delete_user_sessionsE (fault : Bool) (db : DB) (app user : String) :
    Except DbError (DB × Nat) :=
  if fault then .ok (db, 0)
  else .ok (delete_user_sessions db app user)

/-! Generic list and lookup lemmas. -/

theorem lookupKey_append (k : String) (l1 l2 : Obj) :
    lookupKey k (l1 ++ l2) = (lookupKey k l1).or (lookupKey k l2) := by
  induction l1 with
  | nil => rfl
  | cons p ps ih =>
    by_cases h : p.1 = k
    · simp [lookupKey, h]
    · simp [lookupKey, h, ih]

theorem lookupKey_map_override (old new : Obj) (k : String) :
    lookupKey k (old.map (fun p => match lookupKey p.1 new with
      | some v => (p.1, v)
      | none => p)) =
    match lookupKey k old with
    | some w => some ((lookupKey k new).getD w)
    | none => none := by
  induction old with
  | nil => rfl
  | cons p ps ih =>
    by_cases h : p.1 = k
    · subst h
      cases hn : lookupKey p.1 new <;> simp [lookupKey, hn]
    · cases hn : lookupKey p.1 new <;> simp [lookupKey, hn, h, ih]

theorem lookupKey_filter_absent (new old : Obj) (k : String) :
    lookupKey k (new.filter (fun p => (lookupKey p.1 old).isNone)) =
    if (lookupKey k old).isNone then lookupKey k new else none := by
  induction new with
  | nil => simp [lookupKey]
  | cons p ps ih =>
    by_cases h : p.1 = k
    · subst h
      cases ho : lookupKey p.1 old <;>
        simp [List.filter_cons, lookupKey, ho, ih]
    · cases ho : lookupKey p.1 old <;>
        cases ho2 : lookupKey k old <;>
          simp [List.filter_cons, lookupKey, ho, ho2, h, ih]

/-- The shallow-merge law at the lookup level: a key present in `new` takes
the `new` value, a key present only in `old` keeps the `old` value. -/
theorem lookupKey_dictMerge (old new : Obj) (k : String) :
    lookupKey k (dictMerge old new) =
      optOr (lookupKey k new) (lookupKey k old) := by
  unfold dictMerge
  rw [lookupKey_append, lookupKey_map_override, lookupKey_filter_absent]
  cases ho : lookupKey k old <;> cases hn : lookupKey k new <;>
    simp [optOr, Option.or]

theorem find?_map_pres {α : Type} (p : α → Bool) (g : α → α)
    (h : ∀ a, p (g a) = p a) (l : List α) :
    (l.map g).find? p = (l.find? p).map g := by
  induction l with
  | nil => rfl
  | cons a l ih =>
    cases hpa : p a
    · rw [List.map_cons,
        List.find?_cons_of_neg _ (by rw [h a, hpa]; exact Bool.false_ne_true),
        List.find?_cons_of_neg _ (by rw [hpa]; exact Bool.false_ne_true), ih]
    · rw [List.map_cons, List.find?_cons_of_pos _ ((h a).trans hpa),
        List.find?_cons_of_pos _ hpa]
      rfl

theorem any_eq_false_of_find?_none {α : Type} {p : α → Bool} {l : List α}
    (h : l.find? p = none) : l.any p = false := by
  rw [List.find?_eq_none] at h
  cases hany : l.any p
  · rfl
  · rw [List.any_eq_true] at hany
    obtain ⟨x, hx, hpx⟩ := hany
    exact absurd hpx (h x hx)

theorem any_eq_true_of_find?_some {α : Type} {p : α → Bool} {l : List α}
    {a : α} (h : l.find? p = some a) : l.any p = true := by
  rw [List.any_eq_true]
  exact ⟨a, List.mem_of_find?_eq_some h, List.find?_some h⟩

theorem find?_filter_not {α : Type} (p : α → Bool) (l : List α) :
    (l.filter (fun a => !(p a))).find? p = none := by
  rw [List.find?_eq_none]
  intro x hx
  have := (List.mem_filter.mp hx).2
  simp only [Bool.not_eq_true'] at this
  simp [this]

theorem filter_filter_not {α : Type} (p : α → Bool) (l : List α) :
    (l.filter (fun a => !(p a))).filter p = [] := by
  rw [List.filter_eq_nil_iff]
  intro x hx
  have := (List.mem_filter.mp hx).2
  simp only [Bool.not_eq_true'] at this
  simp [this]

theorem threeKey_of_sidKey_none {l : List AgentSession} {sid : String}
    (h : l.find? (sidKey sid) = none) (app user : String) :
    l.find? (threeKey app user sid) = none := by
  rw [List.find?_eq_none] at h ⊢
  intro r hr hthree
  apply h r hr
  unfold threeKey at hthree
  unfold sidKey
  rw [Bool.and_eq_true, Bool.and_eq_true] at hthree
  exact hthree.1.1

/-! Characterisation lemmas for the session operations. -/

theorem sidKey_touch_if (sid : String) (t : Nat) (a : AgentSession) :
    sidKey sid (if sidKey sid a then touchRow t a else a) = sidKey sid a := by
  by_cases h : sidKey sid a
  · rw [if_pos h]; rfl
  · rw [if_neg h]

theorem threeKey_touch_if (app user sid sid2 : String) (t : Nat)
    (a : AgentSession) :
    threeKey app user sid (if sidKey sid2 a then touchRow t a else a) =
      threeKey app user sid a := by
  by_cases h : sidKey sid2 a
  · rw [if_pos h]; rfl
  · rw [if_neg h]

theorem threeKey_updated_if (app user sid : String) (t : Nat)
    (cur : AgentSession) (st? : Option Obj) (ev? : Option (List Obj))
    (md? : Option Obj) (ac : Bool) (a : AgentSession) :
    threeKey app user sid
      (if threeKey app user sid a then updatedRow t cur st? ev? md? ac a
       else a) = threeKey app user sid a := by
  by_cases h : threeKey app user sid a
  · rw [if_pos h]; rfl
  · rw [if_neg h]

theorem sidKey_freshRow (t : Nat) (app user sid : String)
    (s m : Option Obj) : sidKey sid (freshRow t app user sid s m) = true := by
  simp [sidKey, freshRow]

theorem threeKey_freshRow (t : Nat) (app user sid : String)
    (s m : Option Obj) :
    threeKey app user sid (freshRow t app user sid s m) = true := by
  simp [threeKey, freshRow]

theorem create_session_agent_absent (db : DB) (t : Nat) (app user sid : String)
    (s m : Option Obj) (h : findSessionRow db sid = none) :
    (create_session db t app user sid s m).agent_sessions =
      db.agent_sessions ++ [freshRow t app user sid s m] := by
  unfold create_session
  rw [any_eq_false_of_find?_none h]
  rfl

theorem findSessionRow_create_absent (db : DB) (t : Nat)
    (app user sid : String) (s m : Option Obj)
    (h : findSessionRow db sid = none) :
    findSessionRow (create_session db t app user sid s m) sid =
      some (freshRow t app user sid s m) := by
  unfold findSessionRow
  rw [create_session_agent_absent db t app user sid s m h, List.find?_append]
  unfold findSessionRow at h
  rw [h]
  rw [List.find?_cons_of_pos _ (sidKey_freshRow t app user sid s m)]
  rfl

theorem findByKeys_create_absent (db : DB) (t : Nat) (app user sid : String)
    (s m : Option Obj) (h : findSessionRow db sid = none) :
    findByKeys (create_session db t app user sid s m) app user sid =
      some (freshRow t app user sid s m) := by
  unfold findByKeys
  rw [create_session_agent_absent db t app user sid s m h, List.find?_append]
  rw [threeKey_of_sidKey_none h app user]
  rw [List.find?_cons_of_pos _ (threeKey_freshRow t app user sid s m)]
  rfl

theorem create_session_agent_present (db : DB) (t : Nat)
    (app user sid : String) (s m : Option Obj) (row : AgentSession)
    (h : findSessionRow db sid = some row) :
    (create_session db t app user sid s m).agent_sessions =
      db.agent_sessions.map
        (fun r => if sidKey sid r then touchRow t r else r) := by
  unfold create_session
  rw [any_eq_true_of_find?_some h]
  rfl

theorem findSessionRow_create_present (db : DB) (t : Nat)
    (app user sid : String) (s m : Option Obj) (row : AgentSession)
    (h : findSessionRow db sid = some row) :
    findSessionRow (create_session db t app user sid s m) sid =
      some (touchRow t row) := by
  unfold findSessionRow
  rw [create_session_agent_present db t app user sid s m row h,
    find?_map_pres _ _ (sidKey_touch_if sid t)]
  unfold findSessionRow at h
  rw [h]
  have hk : sidKey sid row = true := List.find?_some h
  simp [hk]

theorem update_session_found (db : DB) (t : Nat) (app user sid : String)
    (st? : Option Obj) (ev? : Option (List Obj)) (md? : Option Obj)
    (ac : Bool) (row : AgentSession)
    (h : findByKeys db app user sid = some row) :
    update_session db t app user sid st? ev? md? ac =
      { db with
        agent_sessions := db.agent_sessions.map (fun r =>
          if threeKey app user sid r then updatedRow t row st? ev? md? ac r
          else r)
        session_events :=
          db.session_events ++ (ev?.getD []).map (mkEventRow app user sid) } := by
  unfold update_session
  rw [h]

theorem findByKeys_update_found (db : DB) (t : Nat) (app user sid : String)
    (st? : Option Obj) (ev? : Option (List Obj)) (md? : Option Obj)
    (ac : Bool) (row : AgentSession)
    (h : findByKeys db app user sid = some row) :
    findByKeys (update_session db t app user sid st? ev? md? ac) app user sid =
      some (updatedRow t row st? ev? md? ac row) := by
  rw [update_session_found db t app user sid st? ev? md? ac row h]
  unfold findByKeys
  rw [find?_map_pres _ _ (threeKey_updated_if app user sid t row st? ev? md? ac)]
  unfold findByKeys at h
  rw [h]
  have hk : threeKey app user sid row = true := List.find?_some h
  simp [hk]

/-! Claim theorems. -/

/-- C1: `create_session` is idempotent as a touch, not a replace: for every
key and any two initial-state maps, calling `create_session` with `s1` and
then again with `s2` leaves the stored session's state equal to the value
from the first call (the Python-coalesced `s1 or {}`), likewise preserves
its metadata, and the second call changes only `last_activity` and
`updated_at` (and touches no event rows). -/
theorem create_session_idempotent_touch (db : DB) (t1 t2 : Nat)
    (app user sid : String) (s1 m1 s2 m2 : Option Obj)
    (h : findSessionRow db sid = none) :
    findSessionRow (create_session db t1 app user sid s1 m1) sid =
      some (freshRow t1 app user sid s1 m1)
    ∧ findSessionRow
        (create_session (create_session db t1 app user sid s1 m1) t2
          app user sid s2 m2) sid =
      some { freshRow t1 app user sid s1 m1 with
             last_activity := t2, updated_at := t2 }
    ∧ (freshRow t1 app user sid s1 m1).state = some (orEmpty s1)
    ∧ (freshRow t1 app user sid s1 m1).metadata = some (orEmpty m1)
    ∧ (create_session (create_session db t1 app user sid s1 m1) t2
        app user sid s2 m2).session_events = db.session_events := by
  have h1 := findSessionRow_create_absent db t1 app user sid s1 m1 h
  refine ⟨h1, ?_, rfl, rfl, rfl⟩
  rw [findSessionRow_create_present _ t2 app user sid s2 m2 _ h1]
  rfl

/-- Witness for C1 at a concrete database and concrete states. -/
theorem create_session_idempotent_touch_witness :
    findSessionRow
      (create_session
        (create_session DB.empty 1 "a" "u" "s" (some [("k", Value.n 1)]) none)
        2 "a" "u" "s" (some [("k", Value.n 2)]) none) "s" =
    some { freshRow 1 "a" "u" "s" (some [("k", Value.n 1)]) none with
           last_activity := 2, updated_at := 2 } :=
  (create_session_idempotent_touch DB.empty 1 2 "a" "u" "s"
    (some [("k", Value.n 1)]) none (some [("k", Value.n 2)]) none rfl).2.1

/-- C2 evidence: the claim says `find_players_by_name` returns the empty
list whenever the directory backend is unavailable.  The code instead
raises: when the connection attempt itself fails, the `except` handler's
`return []` is replaced by the `UnboundLocalError` raised by the `finally`
block reading the never-assigned local `conn`.  Only a failure after the
connection was established yields the soft empty list. -/
theorem find_players_connect_failure_raises :
    find_players_by_name .atConnect [⟨"Novak Djokovic", "Rafael Nadal"⟩]
      "Federer" 5 = .error .unboundLocalError
    ∧ find_players_by_name .atQuery [⟨"Novak Djokovic", "Rafael Nadal"⟩]
      "Federer" 5 = .ok [] :=
  ⟨rfl, rfl⟩

/-- C3 counterexample: the claim says every write operation propagates a
storage-layer failure as an error, but `delete_session` converts it into
`False` and `delete_user_sessions` into `0` (database_session_service.py
lines 343-346 and 375-378). -/
theorem delete_failure_not_propagated :
    delete_sessionE true DB.empty "app" "u" "s" = .ok (DB.empty, false)
    ∧ delete_user_sessionsE true DB.empty "app" "u" = .ok (DB.empty, 0) :=
  ⟨rfl, rfl⟩

/-- C3 amended: `create_session` and `update_session` propagate a
storage-layer failure as an error, while `delete_session` returns `False`
and `delete_user_sessions` returns `0`, both leaving the database unchanged
(rollback). -/
theorem write_failure_propagation_amended (db : DB) (t : Nat)
    (app user sid : String) (s m : Option Obj) (st? : Option Obj)
    (ev? : Option (List Obj)) (md? : Option Obj) (ac : Bool) :
    create_sessionE true db t app user sid s m = .error .storageFailure
    ∧ update_sessionE true db t app user sid st? ev? md? ac =
        .error .storageFailure
    ∧ delete_sessionE true db app user sid = .ok (db, false)
    ∧ delete_user_sessionsE true db app user = .ok (db, 0) :=
  ⟨rfl, rfl, rfl, rfl⟩

/-- C4 evidence: the claim says that with the directory structurally
unavailable `expand_player_name` returns the title-cased multi-token input
(or the empty list for a single token).  In the code that fallback sits in
an `except ImportError` handler which can never fire: `find_players_by_name`
catches `ImportError` internally, and a connection failure surfaces as
`UnboundLocalError`, which `expand_player_name` does not catch and instead
propagates to its caller, for multi-token and single-token inputs alike. -/
theorem expand_player_name_unavailable_raises :
    expand_player_name .atConnect [] "Roger Federer" =
      .error .unboundLocalError
    ∧ expand_player_name .atConnect [] "Federer" =
      .error .unboundLocalError
    ∧ expand_player_name .atConnect [] "Roger Federer" ≠
      .ok [titleStr "Roger Federer"] := by
  refine ⟨rfl, rfl, ?_⟩
  intro h
  exact Except.noConfusion h

/-- C5: for every existing session, `update_session` shallow-merges the
supplied state into the stored state (supplied keys overwrite, stored-only
keys are retained — the lookup law), metadata merges the same way, omitting
state or metadata leaves the stored value unchanged, and starting from an
empty stored state, updating with `{a:1}` and then `{b:2}` leaves final
state `{a:1, b:2}`. -/
theorem update_session_merge_law (db : DB) (t1 t2 : Nat)
    (app user sid : String) (row : AgentSession) (os om : Obj)
    (h : findByKeys db app user sid = some row)
    (hs : row.state = some os) (hm : row.metadata = some om) :
    (∀ st md, ∃ r1,
      findByKeys (update_session db t1 app user sid (some st) none (some md)
        false) app user sid = some r1
      ∧ r1.state = some (dictMerge os st)
      ∧ r1.metadata = some (dictMerge om md)
      ∧ r1.events = row.events
      ∧ r1.conversation_count = row.conversation_count
      ∧ r1.total_events = row.total_events)
    ∧ (∃ r2,
      findByKeys (update_session db t1 app user sid none none none false)
        app user sid = some r2
      ∧ r2.state = some os ∧ r2.metadata = some om)
    ∧ (∀ base st k, lookupKey k (dictMerge base st) =
        optOr (lookupKey k st) (lookupKey k base))
    ∧ (os = [] → ∃ r3,
      findByKeys
        (update_session
          (update_session db t1 app user sid (some [("a", Value.n 1)]) none
            none false)
          t2 app user sid (some [("b", Value.n 2)]) none none false)
        app user sid = some r3
      ∧ r3.state = some [("a", Value.n 1), ("b", Value.n 2)]) := by
  refine ⟨?_, ?_, ?_, ?_⟩
  · intro st md
    refine ⟨_, findByKeys_update_found db t1 app user sid (some st) none
      (some md) false row h, ?_, ?_, ?_, ?_, ?_⟩ <;>
      simp [updatedRow, mergeOpt, orEmpty, hs, hm]
  · refine ⟨_, findByKeys_update_found db t1 app user sid none none none
      false row h, ?_, ?_⟩ <;>
      simp [updatedRow, mergeOpt, orEmpty, hs, hm]
  · intro base st k
    exact lookupKey_dictMerge base st k
  · intro hos
    have h1 := findByKeys_update_found db t1 app user sid
      (some [("a", Value.n 1)]) none none false row h
    refine ⟨_, findByKeys_update_found _ t2 app user sid
      (some [("b", Value.n 2)]) none none false _ h1, ?_⟩
    simp [updatedRow, mergeOpt, orEmpty, hs, hos]
    rfl

/-- Witness for C5: concrete session with stored state `{x:7}`, updated
with state `{y:8}` and metadata `{m:"v"}`. -/
theorem update_session_merge_law_witness :
    ∃ r1,
      findByKeys (update_session
        (create_session DB.empty 0 "a" "u" "s" (some [("x", Value.n 7)]) none)
        1 "a" "u" "s" (some [("y", Value.n 8)]) none (some [("m", Value.s "v")])
        false) "a" "u" "s" = some r1
      ∧ r1.state = some (dictMerge [("x", Value.n 7)] [("y", Value.n 8)])
      ∧ r1.metadata = some (dictMerge [] [("m", Value.s "v")])
      ∧ r1.events = (freshRow 0 "a" "u" "s" (some [("x", Value.n 7)]) none).events
      ∧ r1.conversation_count =
          (freshRow 0 "a" "u" "s" (some [("x", Value.n 7)]) none).conversation_count
      ∧ r1.total_events =
          (freshRow 0 "a" "u" "s" (some [("x", Value.n 7)]) none).total_events :=
  (update_session_merge_law
    (create_session DB.empty 0 "a" "u" "s" (some [("x", Value.n 7)]) none)
    1 2 "a" "u" "s" (freshRow 0 "a" "u" "s" (some [("x", Value.n 7)]) none)
    [("x", Value.n 7)] [] rfl rfl rfl).1 [("y", Value.n 8)] [("m", Value.s "v")]

/-- C7: `delete_session` on an existing session returns true, removes the
session row and all of the session's event rows, and a second call with the
same key returns false. -/
theorem delete_session_removes_and_reports (db : DB) (app user sid : String)
    (h : db.agent_sessions.any (threeKey app user sid) = true) :
    (delete_session db app user sid).2 = true
    ∧ findByKeys (delete_session db app user sid).1 app user sid = none
    ∧ sessionEventsFor (delete_session db app user sid).1 app user sid = []
    ∧ (delete_session (delete_session db app user sid).1 app user sid).2 =
        false := by
  refine ⟨h, ?_, ?_, ?_⟩
  · exact find?_filter_not (threeKey app user sid) db.agent_sessions
  · exact filter_filter_not (threeKeyEv app user sid) db.session_events
  · exact any_eq_false_of_find?_none
      (find?_filter_not (threeKey app user sid) db.agent_sessions)

/-- Witness for C7 on a concrete database holding one session with one
event row. -/
theorem delete_session_removes_and_reports_witness :
    (delete_session
      (update_session (create_session DB.empty 0 "a" "u" "s" none none)
        1 "a" "u" "s" none (some [[("type", Value.s "msg")]]) none false)
      "a" "u" "s").2 = true
    ∧ findByKeys (delete_session
        (update_session (create_session DB.empty 0 "a" "u" "s" none none)
          1 "a" "u" "s" none (some [[("type", Value.s "msg")]]) none false)
        "a" "u" "s").1 "a" "u" "s" = none
    ∧ sessionEventsFor (delete_session
        (update_session (create_session DB.empty 0 "a" "u" "s" none none)
          1 "a" "u" "s" none (some [[("type", Value.s "msg")]]) none false)
        "a" "u" "s").1 "a" "u" "s" = []
    ∧ (delete_session
        (delete_session
          (update_session (create_session DB.empty 0 "a" "u" "s" none none)
            1 "a" "u" "s" none (some [[("type", Value.s "msg")]]) none false)
          "a" "u" "s").1 "a" "u" "s").2 = false :=
  delete_session_removes_and_reports
    (update_session (create_session DB.empty 0 "a" "u" "s" none none)
      1 "a" "u" "s" none (some [[("type", Value.s "msg")]]) none false)
    "a" "u" "s" rfl

/-- A string whose lowercasing is empty is itself empty. -/
theorem lowerStr_eq_empty {p : String} (h : lowerStr p = "") : p = "" := by
  have hd : p.data.map Char.toLower = [] := congrArg String.data h
  exact String.ext (List.map_eq_nil_iff.mp hd)

/-- C8: an empty or whitespace-only `search_name` does not match every
record: the single-token surname and containment strategies are skipped for
zero-token input, and (for a directory of nonempty names) nothing is
returned at all. -/
theorem find_players_empty_input_no_match (dir : List PredRow) (s : String)
    (m : Nat) (h1 : stripStr s = "")
    (h2 : ∀ p ∈ allPlayers dir, p ≠ "") :
    findPlayersPure dir s m = [] := by
  unfold findPlayersPure playerStrategies
  rw [h1]
  have htitle : titleStr "" = "" := rfl
  rw [htitle, if_neg (by decide)]
  have hexact : exactMatches dir "" = [] := by
    unfold exactMatches
    have hfil : (allPlayers dir).filter (fun p => lowerStr p == lowerStr "") = [] := by
      rw [List.filter_eq_nil_iff]
      intro p hp hbeq
      exact h2 p hp (lowerStr_eq_empty (beq_iff_eq.mp hbeq))
    rw [hfil]
    rfl
  rw [hexact]
  rfl

/-- Witness for C8 on a concrete directory of two nonempty names and a
whitespace-only query. -/
theorem find_players_empty_input_no_match_witness :
    findPlayersPure [⟨"Roger Federer", "Rafael Nadal"⟩] "   " 5 = [] :=
  find_players_empty_input_no_match [⟨"Roger Federer", "Rafael Nadal"⟩]
    "   " 5 rfl (by decide)

/-- C10: `update_session` on an absent key takes the implicit-create path:
any supplied events are discarded — no event rows are inserted, and the new
session has the supplied state and metadata but an empty events list,
`total_events = 0` and `conversation_count = 0`, even though events were
supplied and `add_conversation` was true. -/
theorem update_session_implicit_create_drops_events (db : DB) (t : Nat)
    (app user sid : String) (st md : Obj) (evs : List Obj)
    (h : findSessionRow db sid = none) :
    (update_session db t app user sid (some st) (some evs) (some md)
      true).session_events = db.session_events
    ∧ findByKeys (update_session db t app user sid (some st) (some evs)
        (some md) true) app user sid =
      some (freshRow t app user sid (some st) (some md))
    ∧ (freshRow t app user sid (some st) (some md)).events = []
    ∧ (freshRow t app user sid (some st) (some md)).total_events = 0
    ∧ (freshRow t app user sid (some st) (some md)).conversation_count = 0
    ∧ (freshRow t app user sid (some st) (some md)).state = some st := by
  have h3 : findByKeys db app user sid = none := by
    unfold findSessionRow at h
    exact threeKey_of_sidKey_none h app user
  have hupd : update_session db t app user sid (some st) (some evs) (some md)
      true = create_session db t app user sid (some st) (some md) := by
    unfold update_session
    rw [h3]
  rw [hupd]
  exact ⟨rfl, findByKeys_create_absent db t app user sid (some st) (some md) h,
    rfl, rfl, rfl, rfl⟩

/-- Witness for C10 on the empty database, with an event supplied and
`add_conversation = true`. -/
theorem update_session_implicit_create_drops_events_witness :
    (update_session DB.empty 3 "a" "u" "s" (some [("x", Value.n 1)])
      (some [[("type", Value.s "msg")]]) (some []) true).session_events =
      DB.empty.session_events
    ∧ findByKeys (update_session DB.empty 3 "a" "u" "s"
        (some [("x", Value.n 1)]) (some [[("type", Value.s "msg")]])
        (some []) true) "a" "u" "s" =
      some (freshRow 3 "a" "u" "s" (some [("x", Value.n 1)]) (some []))
    ∧ (freshRow 3 "a" "u" "s" (some [("x", Value.n 1)]) (some [])).events = []
    ∧ (freshRow 3 "a" "u" "s" (some [("x", Value.n 1)])
        (some [])).total_events = 0
    ∧ (freshRow 3 "a" "u" "s" (some [("x", Value.n 1)])
        (some [])).conversation_count = 0
    ∧ (freshRow 3 "a" "u" "s" (some [("x", Value.n 1)]) (some [])).state =
      some [("x", Value.n 1)] :=
  update_session_implicit_create_drops_events DB.empty 3 "a" "u" "s"
    [("x", Value.n 1)] [] [[("type", Value.s "msg")]] rfl

/-- In a list with pairwise-distinct `session_id`s, any member carrying the
searched id coincides with the row that `find?` returns. -/
theorem eq_find_of_sid_unique {l : List AgentSession} {sid : String}
    (hnd : (l.map (fun r => r.session_id)).Nodup) {r row : AgentSession}
    (hfind : l.find? (sidKey sid) = some row) (hr : r ∈ l)
    (hsid : r.session_id = sid) : r = row := by
  have hrow : row ∈ l := List.mem_of_find?_eq_some hfind
  have hksid : row.session_id = sid := by
    have hb := List.find?_some hfind
    unfold sidKey at hb
    exact beq_iff_eq.mp hb
  exact List.inj_on_of_nodup_map hnd hr hrow (by rw [hsid, hksid])

/-- Touch behaviour of the committing branch of a cross-user create:
`agent_sessions` is keyed by `session_id` alone, so `create_session` under
a different `(app2, user2)` with the same `sid` adds no row, only refreshes
the existing row's timestamps, and leaves `get_session(app2, user2, sid)`
absent.  Helper for the amended C9 theorem, which guards this with the
`user_context` unique-violation condition. -/
theorem create_session_cross_user_touch_aux (db : DB) (t : Nat)
    (app1 user1 app2 user2 sid : String) (s m : Option Obj)
    (row : AgentSession)
    (hfind : findSessionRow db sid = some row)
    (huser : row.user_id = user1) (happ : row.app_name = app1)
    (hdiff : user2 ≠ user1 ∨ app2 ≠ app1)
    (hnd : (db.agent_sessions.map (fun r => r.session_id)).Nodup)
    (hs : row.state.isSome) (hm : row.metadata.isSome) :
    (create_session db t app2 user2 sid s m).agent_sessions.length =
      db.agent_sessions.length
    ∧ findSessionRow (create_session db t app2 user2 sid s m) sid =
      some { row with last_activity := t, updated_at := t }
    ∧ get_session (create_session db t app2 user2 sid s m) app2 user2 sid =
      none := by
  have htouch : touchRow t row = { row with last_activity := t, updated_at := t } := by
    obtain ⟨os, hos⟩ := Option.isSome_iff_exists.mp hs
    obtain ⟨om, hom⟩ := Option.isSome_iff_exists.mp hm
    simp [touchRow, orEmpty, hos, hom]
  refine ⟨?_, ?_, ?_⟩
  · rw [create_session_agent_present db t app2 user2 sid s m row hfind]
    exact List.length_map _ _
  · rw [findSessionRow_create_present db t app2 user2 sid s m row hfind, htouch]
  · have hnone : findByKeys (create_session db t app2 user2 sid s m)
        app2 user2 sid = none := by
      unfold findByKeys
      rw [create_session_agent_present db t app2 user2 sid s m row hfind,
        find?_map_pres _ _ (threeKey_touch_if app2 user2 sid sid t)]
      have hbase : db.agent_sessions.find? (threeKey app2 user2 sid) = none := by
        rw [List.find?_eq_none]
        intro r hr hthree
        unfold threeKey at hthree
        rw [Bool.and_eq_true, Bool.and_eq_true] at hthree
        have hsid : r.session_id = sid := beq_iff_eq.mp hthree.1.1
        have hu : r.user_id = user2 := beq_iff_eq.mp hthree.1.2
        have ha : r.app_name = app2 := beq_iff_eq.mp hthree.2
        have hre : r = row := eq_find_of_sid_unique hnd hfind hr hsid
        rcases hdiff with hd | hd
        · exact hd (by rw [← hu, hre, huser])
        · exact hd (by rw [← ha, hre, happ])
      rw [hbase]
      rfl
    unfold get_session
    rw [hnone]

/-- C9 counterexample: in the reachable state where session `"s"` was
created under `("a1","u1")` — so the context row `("u1","a1")` exists — the
cross-app call `create_session("a2","u1","s")` does not merely refresh
`last_activity`/`updated_at` as the claim states: the lazy `user_context`
insert violates the table's `user_id` primary key (not arbitrated by the
`ON CONFLICT (user_id, app_name)` clause), the transaction rolls back and
the error propagates, leaving nothing refreshed. -/
theorem create_session_cross_app_raises :
    create_sessionChecked (create_session DB.empty 0 "a1" "u1" "s" none none)
      5 "a2" "u1" "s" none none = .error .uniqueViolation := rfl

/-- C9 amended: `agent_sessions` is keyed by `session_id` alone, so a
cross-user `create_session` with an existing `sid` never creates a second
session row; but its outcome splits on the `user_context` table.  When
`user2` already holds a context row under a different app — which is
always the case for `user2 = user1` with `app2 ≠ app1` in reachable
states, since creating the session stored the `(user1, app1)` context
row — the call raises a unique violation on the context table's `user_id`
primary key and rolls back, changing nothing.  Otherwise it only refreshes
the existing row's `last_activity` and `updated_at`, and a subsequent
`get_session(app2, user2, sid)` still returns absent. -/
theorem create_session_primary_key_amended (db : DB) (t : Nat)
    (app1 user1 app2 user2 sid : String) (s m : Option Obj)
    (row : AgentSession)
    (hfind : findSessionRow db sid = some row)
    (huser : row.user_id = user1) (happ : row.app_name = app1)
    (hdiff : user2 ≠ user1 ∨ app2 ≠ app1)
    (hnd : (db.agent_sessions.map (fun r => r.session_id)).Nodup)
    (hs : row.state.isSome) (hm : row.metadata.isSome) :
    (user2 = user1 → app2 ≠ app1 →
      (∃ c ∈ db.user_context, c.user_id = user1 ∧ c.app_name = app1) →
      userCtxPkViolation db.user_context user2 app2 = true)
    ∧ (userCtxPkViolation db.user_context user2 app2 = true →
      create_sessionChecked db t app2 user2 sid s m =
        .error .uniqueViolation)
    ∧ (userCtxPkViolation db.user_context user2 app2 = false →
      ∃ db2, create_sessionChecked db t app2 user2 sid s m = .ok db2
        ∧ db2.agent_sessions.length = db.agent_sessions.length
        ∧ findSessionRow db2 sid =
            some { row with last_activity := t, updated_at := t }
        ∧ get_session db2 app2 user2 sid = none) := by
  refine ⟨?_, ?_, ?_⟩
  · intro hu ha hctx
    obtain ⟨c, hcmem, hcu, hca⟩ := hctx
    unfold userCtxPkViolation
    rw [List.any_eq_true]
    refine ⟨c, hcmem, ?_⟩
    rw [Bool.and_eq_true]
    constructor
    · rw [beq_iff_eq, hcu, hu]
    · rw [Bool.not_eq_true', beq_eq_false_iff_ne]
      rw [hca]
      exact fun hx => ha hx.symm
  · intro hv
    unfold create_sessionChecked
    rw [hv]
    rfl
  · intro hv
    refine ⟨create_session db t app2 user2 sid s m, ?_,
      create_session_cross_user_touch_aux db t app1 user1 app2 user2 sid s m
        row hfind huser happ hdiff hnd hs hm⟩
    unfold create_sessionChecked
    rw [hv]
    rfl

/-- Witness for the amended C9: with session `"s"` created under
`("a1","u1")`, a create under the fresh user `("a2","u2")` hits no context
row, commits, and only touches the timestamps of the foreign session row,
which `get_session("a2","u2","s")` still cannot read. -/
theorem create_session_primary_key_amended_witness :
    ∃ db2, create_sessionChecked
        (create_session DB.empty 0 "a1" "u1" "s" none none)
        5 "a2" "u2" "s" none none = .ok db2
      ∧ db2.agent_sessions.length =
          (create_session DB.empty 0 "a1" "u1" "s" none
            none).agent_sessions.length
      ∧ findSessionRow db2 "s" =
          some { freshRow 0 "a1" "u1" "s" none none with
                 last_activity := 5, updated_at := 5 }
      ∧ get_session db2 "a2" "u2" "s" = none :=
  (create_session_primary_key_amended
    (create_session DB.empty 0 "a1" "u1" "s" none none)
    5 "a1" "u1" "a2" "u2" "s" none none
    (freshRow 0 "a1" "u1" "s" none none)
    rfl rfl rfl (Or.inl (by decide)) (by decide) rfl rfl).2.2 rfl

/-- Iterated `update_session`: `n` successive calls on one key, each supplying the
same event batch `evs`, no state/metadata change and no conversation bump. -/
def applyUpdates (t : Nat) (app user sid : String) (evs : List Obj) :
    Nat → DB → DB
  | 0, db => db
  | n + 1, db =>
    applyUpdates t app user sid evs n
      (update_session db t app user sid none (some evs) none false)

theorem length_flatten_replicate {α : Type} (n : Nat) (l : List α) :
    ((List.replicate n l).flatten).length = n * l.length := by
  induction n with
  | zero => simp
  | succ n ih =>
    rw [List.replicate_succ, List.flatten_cons, List.length_append, ih,
      Nat.succ_mul]
    omega

theorem filter_flatten_replicate {α : Type} (p : α → Bool) (blk : List α)
    (hb : blk.filter p = blk) (n : Nat) :
    ((List.replicate n blk).flatten).filter p =
      (List.replicate n blk).flatten := by
  induction n with
  | zero => rfl
  | succ n ih =>
    rw [List.replicate_succ, List.flatten_cons, List.filter_append, hb, ih]

theorem filter_threeKeyEv_mkRows (app user sid : String) (evs : List Obj) :
    (evs.map (mkEventRow app user sid)).filter (threeKeyEv app user sid) =
      evs.map (mkEventRow app user sid) := by
  induction evs with
  | nil => rfl
  | cons e es ih =>
    rw [List.map_cons, List.filter_cons]
    have : threeKeyEv app user sid (mkEventRow app user sid e) = true := by
      simp [threeKeyEv, mkEventRow]
    rw [this, if_pos rfl, ih]

/-- Effect of `n` identical event-appending updates on an existing row. -/
theorem applyUpdates_accum (t : Nat) (app user sid : String)
    (evs : List Obj) :
    ∀ (n : Nat) (db : DB) (row : AgentSession),
      findByKeys db app user sid = some row →
      ∃ r, findByKeys (applyUpdates t app user sid evs n db) app user sid =
          some r
        ∧ r.events = row.events ++ (List.replicate n evs).flatten
        ∧ r.total_events = row.total_events + n * evs.length
        ∧ r.conversation_count = row.conversation_count
        ∧ (applyUpdates t app user sid evs n db).session_events =
            db.session_events ++
              (List.replicate n (evs.map (mkEventRow app user sid))).flatten := by
  intro n
  induction n with
  | zero =>
    intro db row h
    exact ⟨row, h, (List.append_nil _).symm, by simp,
      rfl, (List.append_nil _).symm⟩
  | succ n ih =>
    intro db row h
    simp only [applyUpdates]
    have hrow1 := findByKeys_update_found db t app user sid none (some evs)
      none false row h
    obtain ⟨r, hr, he, ht2, hc, hsev⟩ :=
      ih (update_session db t app user sid none (some evs) none false) _ hrow1
    refine ⟨r, hr, ?_, ?_, ?_, ?_⟩
    · rw [he]
      simp [updatedRow, List.replicate_succ, List.flatten_cons,
        List.append_assoc]
    · rw [ht2]
      simp only [updatedRow, Option.getD]
      rw [Nat.succ_mul]
      omega
    · rw [hc]
      simp [updatedRow]
    · rw [hsev, update_session_found db t app user sid none (some evs) none
        false row h]
      simp [List.replicate_succ, List.flatten_cons, List.append_assoc]

/-- C6: starting from a freshly created session, after `n` update calls
each supplying the batch `evs` (of length `m`), the row has
`total_events = n*m`, an events list of length `n*m` (the `n`-fold
concatenation of `evs`), exactly `n*m` event-table rows exist for the
session (the `n`-fold concatenation of the per-batch rows), and every event
row carries the event's declared type, defaulting to `"unknown"`. -/
theorem update_session_event_accumulation (db : DB) (t : Nat)
    (app user sid : String) (evs : List Obj) (n : Nat)
    (h1 : findSessionRow db sid = none)
    (h2 : sessionEventsFor db app user sid = []) :
    ∃ r, findByKeys (applyUpdates t app user sid evs n
        (create_session db t app user sid none none)) app user sid = some r
      ∧ r.total_events = n * evs.length
      ∧ r.events = (List.replicate n evs).flatten
      ∧ r.events.length = n * evs.length
      ∧ sessionEventsFor (applyUpdates t app user sid evs n
          (create_session db t app user sid none none)) app user sid =
        (List.replicate n (evs.map (mkEventRow app user sid))).flatten
      ∧ (sessionEventsFor (applyUpdates t app user sid evs n
          (create_session db t app user sid none none)) app user sid).length =
        n * evs.length
      ∧ ∀ e ∈ sessionEventsFor (applyUpdates t app user sid evs n
          (create_session db t app user sid none none)) app user sid,
          e.event_type = eventTypeOf e.event_data := by
  have hrow0 := findByKeys_create_absent db t app user sid none none h1
  obtain ⟨r, hr, he, ht2, hc, hsev⟩ :=
    applyUpdates_accum t app user sid evs n
      (create_session db t app user sid none none) _ hrow0
  have hev : r.events = (List.replicate n evs).flatten := he
  have hevfor : sessionEventsFor (applyUpdates t app user sid evs n
      (create_session db t app user sid none none)) app user sid =
      (List.replicate n (evs.map (mkEventRow app user sid))).flatten := by
    unfold sessionEventsFor
    rw [hsev]
    have hcreate : (create_session db t app user sid none none).session_events
        = db.session_events := rfl
    rw [hcreate, List.filter_append]
    unfold sessionEventsFor at h2
    rw [h2, filter_flatten_replicate _ _
      (filter_threeKeyEv_mkRows app user sid evs) n]
    rfl
  refine ⟨r, hr, ?_, hev, ?_, hevfor, ?_, ?_⟩
  · rw [ht2]
    simp [freshRow]
  · rw [hev]
    exact length_flatten_replicate n evs
  · rw [hevfor, length_flatten_replicate n (evs.map (mkEventRow app user sid)),
      List.length_map]
  · intro e hmem
    rw [hevfor] at hmem
    rw [List.mem_flatten] at hmem
    obtain ⟨l, hl, hel⟩ := hmem
    have hle : l = evs.map (mkEventRow app user sid) :=
      List.eq_of_mem_replicate hl
    rw [hle, List.mem_map] at hel
    obtain ⟨e0, _, he0⟩ := hel
    rw [← he0]
    rfl

/-- Witness for C6: two updates of two events each on a fresh session give
four accumulated events everywhere. -/
theorem update_session_event_accumulation_witness :
    ∃ r, findByKeys (applyUpdates 1 "a" "u" "s"
        [[("type", Value.s "msg")], [("k", Value.n 2)]] 2
        (create_session DB.empty 1 "a" "u" "s" none none)) "a" "u" "s" = some r
      ∧ r.total_events = 2 * 2
      ∧ r.events = (List.replicate 2
          [[("type", Value.s "msg")], [("k", Value.n 2)]]).flatten
      ∧ r.events.length = 2 * 2
      ∧ sessionEventsFor (applyUpdates 1 "a" "u" "s"
          [[("type", Value.s "msg")], [("k", Value.n 2)]] 2
          (create_session DB.empty 1 "a" "u" "s" none none)) "a" "u" "s" =
        (List.replicate 2 ([[("type", Value.s "msg")], [("k", Value.n 2)]].map
          (mkEventRow "a" "u" "s"))).flatten
      ∧ (sessionEventsFor (applyUpdates 1 "a" "u" "s"
          [[("type", Value.s "msg")], [("k", Value.n 2)]] 2
          (create_session DB.empty 1 "a" "u" "s" none none)) "a" "u" "s").length =
        2 * 2
      ∧ ∀ e ∈ sessionEventsFor (applyUpdates 1 "a" "u" "s"
          [[("type", Value.s "msg")], [("k", Value.n 2)]] 2
          (create_session DB.empty 1 "a" "u" "s" none none)) "a" "u" "s",
          e.event_type = eventTypeOf e.event_data := by
  have hlen : ([[("type", Value.s "msg")], [("k", Value.n 2)]] : List Obj).length
      = 2 := rfl
  have := update_session_event_accumulation DB.empty 1 "a" "u" "s"
    [[("type", Value.s "msg")], [("k", Value.n 2)]] 2 rfl rfl
  rw [hlen] at this
  exact this

end Tennis
